import Mathlib

/-!
# Padstack editor: the parameter `Apply` transaction and the required-set handlers

A shallow embedding of the signal handlers that `ImpPadstack::construct`
(`src/imp/imp_padstack.cpp`) connects to the parameter window:

* the `signal_apply` handler (lines 104-127),
* the `signal_toggled` handler of the per-row "Required" check button (lines 77-85),
* the `signal_remove_extra_widget` handler (lines 89-90).

The handlers are modelled as functions on an explicit state.  Every call a handler
makes to a collaborator is appended to a call log, so that statements about which
calls happen, how often and in which order are statements about that log.

`ParameterProgram::set_code` and `ParameterProgram::run` are declared outside this
translation unit; the handlers are therefore parameterised over them
(`ParameterProgramOps`), and the theorems about the handlers hold for every
implementation of the two operations.
-/

namespace Horizon

/-! ## Data model -/

/-- Identifier of a parameter.  In the source this is an enumeration declared in a
header that is not part of this translation unit; its values are numbered here. -/
abbrev ParameterID := Nat

/-- Parameter set: the id/value pairs of a `ParameterSet`, in iteration order. -/
abbrev ParameterSet := List (ParameterID × Int)

/-- Calls made by the handlers to their collaborators, in the order they are made.
The two hooks `rebuild` and `canvas_update` record the value `padstack.parameter_set`
has at the moment of the call. -/
inductive Event where
  | set_code (code : String)
  | run (pset : ParameterSet)
  | set_error_message (msg : String)
  | rebuild (comment : String) (live : ParameterSet)
  | canvas_update (live : ParameterSet)
  | signal_changed
  deriving DecidableEq, Repr

/-- Outcome of `ParameterProgram::set_code`: the returned `optional<string>` (an error
message when present) and the program object after the call. -/
structure SetCodeResult (Program : Type) where
  error : Option String
  program : Program
  deriving DecidableEq, Repr

/-- Outcome of `ParameterProgram::run`: the returned `optional<string>` (an error message
when present), the program object after the call and the parameter set it was handed,
as it is after the call. -/
structure RunResult (Program : Type) where
  error : Option String
  program : Program
  parameter_set : ParameterSet
  deriving DecidableEq, Repr

/-- The two member functions of `ParameterProgram` the Apply handler calls.  Their bodies
are outside `imp_padstack.cpp`, so the handler is parameterised over them.  As in the calls at
lines 109 and 118, `set_code` receives the program object and the source text, and `run` the
program object and the parameter set. -/
structure ParameterProgramOps (Program : Type) where
  set_code : Program → String → SetCodeResult Program
  run : Program → ParameterSet → RunResult Program

/-- The members of `Padstack` the handlers touch (`padstack` in the source). -/
structure Padstack (Program : Type) where
  parameter_program : Program
  parameter_set : ParameterSet
  deriving DecidableEq, Repr

/-- The members of `CorePadstack` the handlers touch (`core_padstack` in the source;
`core` points to the same object). -/
structure CorePadstack where
  tool_is_active : Bool
  parameter_program_code : String
  parameter_set : ParameterSet
  parameters_required : Finset ParameterID
  deriving DecidableEq

/-- The part of `ParameterWindow` the Apply handler writes: the message shown to the user. -/
structure ParameterWindow where
  error_message : String
  deriving DecidableEq, Repr

/-- State of the padstack editor as far as the three handlers are concerned. -/
structure ImpPadstack (Program : Type) where
  core_padstack : CorePadstack
  padstack : Padstack Program
  parameter_window : ParameterWindow
  log : List Event
  deriving DecidableEq

variable {Program : Type}

/-! ## Collaborator calls -/

/-- Effect of `parameter_window->set_error_message(msg)`. -/
def set_error_message (s : ImpPadstack Program) (msg : String) : ImpPadstack Program :=
  { s with parameter_window := { s.parameter_window with error_message := msg },
           log := s.log ++ [Event.set_error_message msg] }

/-- Effect of `core_padstack.rebuild(comment)`: an external hook, recorded in the log together
with the live parameter set it finds. -/
def rebuild (s : ImpPadstack Program) (comment : String) : ImpPadstack Program :=
  { s with log := s.log ++ [Event.rebuild comment s.padstack.parameter_set] }

/-- Effect of `ImpPadstack::canvas_update` (lines 27-30): the canvas is redrawn from the core. -/
def canvas_update (s : ImpPadstack Program) : ImpPadstack Program :=
  { s with log := s.log ++ [Event.canvas_update s.padstack.parameter_set] }

/-- Effect of `ps.parameter_program.set_code(core_padstack.parameter_program_code)`: the program
object is updated and the call is logged; the returned error is handed back. -/
def call_set_code (ops : ParameterProgramOps Program) (s : ImpPadstack Program) :
    Option String × ImpPadstack Program :=
  let r := ops.set_code s.padstack.parameter_program s.core_padstack.parameter_program_code
  (r.error,
   { s with padstack := { s.padstack with parameter_program := r.program },
            log := s.log ++ [Event.set_code s.core_padstack.parameter_program_code] })

/-- Effect of `ps.parameter_program.run(ps.parameter_set)`: program object and the live
parameter set are as `run` leaves them, and the call is logged. -/
def call_run (ops : ParameterProgramOps Program) (s : ImpPadstack Program) :
    Option String × ImpPadstack Program :=
  let r := ops.run s.padstack.parameter_program s.padstack.parameter_set
  (r.error,
   { s with padstack := { parameter_program := r.program, parameter_set := r.parameter_set },
            log := s.log ++ [Event.run s.padstack.parameter_set] })

/-! ## The handlers -/

/-- The `signal_apply` handler (lines 104-127). -/
def signal_apply (ops : ParameterProgramOps Program) (s : ImpPadstack Program) :
    ImpPadstack Program :=
  if s.core_padstack.tool_is_active then
    s
  else
    match call_set_code ops s with
    | (some r, s1) => set_error_message s1 ("<b>Compile error:</b>" ++ r)
    | (none, s1) =>
      let s2 := set_error_message s1 ""
      let s3 := { s2 with padstack :=
                    { s2.padstack with parameter_set := s2.core_padstack.parameter_set } }
      match call_run ops s3 with
      | (some r, s4) => set_error_message s4 ("<b>Run error:</b>" ++ r)
      | (none, s4) =>
        let s5 := set_error_message s4 ""
        let s6 := rebuild s5 "apply parameter set"
        canvas_update s6

/-- Initial state of the "Required" check button created for row `id` (line 76). -/
def create_extra_widget_active (s : ImpPadstack Program) (id : ParameterID) : Bool :=
  decide (id ∈ s.core_padstack.parameters_required)

/-- The `signal_toggled` handler of the "Required" check button of row `id` (lines 77-85);
`active` is the value of `w->get_active()`. -/
def signal_toggled (s : ImpPadstack Program) (id : ParameterID) (active : Bool) :
    ImpPadstack Program :=
  let core :=
    if active then
      { s.core_padstack with parameters_required := insert id s.core_padstack.parameters_required }
    else
      { s.core_padstack with parameters_required := s.core_padstack.parameters_required.erase id }
  { s with core_padstack := core, log := s.log ++ [Event.signal_changed] }

/-- The `signal_remove_extra_widget` handler (lines 89-90). -/
def signal_remove_extra_widget (s : ImpPadstack Program) (id : ParameterID) :
    ImpPadstack Program :=
  { s with core_padstack :=
      { s.core_padstack with parameters_required := s.core_padstack.parameters_required.erase id } }

/-! ## Observations on a run of a handler -/

/-- The calls logged between state `before` and the later state `after`. -/
def newEvents (before after : ImpPadstack Program) : List Event :=
  after.log.drop before.log.length

/-- Whether a logged call is one of the two hooks, rebuild or redraw. -/
def Event.isHook : Event → Bool
  | Event.rebuild _ _ => true
  | Event.canvas_update _ => true
  | _ => false

/-- Whether a logged call is a call of `set_code`. -/
def Event.isSetCode : Event → Bool
  | Event.set_code _ => true
  | _ => false

/-- Whether a logged call is a call of `run`. -/
def Event.isRun : Event → Bool
  | Event.run _ => true
  | _ => false

/-- Parameter ids used by the concrete instance. -/
def hole_diameter : ParameterID := 0
/-- Parameter ids used by the concrete instance. -/
def clearance : ParameterID := 1
/-- Parameter ids used by the concrete instance. -/
def pad_diameter : ParameterID := 2

/-- Modelled from the spec: the bodies of `ParameterProgram::set_code` and
`ParameterProgram::run` are not in `imp_padstack.cpp`.  This instance is a table over the three
example programs of the specification: `pad_diameter = (` does not compile and leaves the stored
program as it was; every other source compiles and replaces the stored program; a program
referencing `unknown_id` fails when run and leaves the parameter set it was given untouched; the
program `pad_diameter = hole_diameter + clearance * 2` writes the derived value; running any
other program, or no program, succeeds without changing the set.  The stored program is the
compiled source, `none` for the empty state. -/
def exampleOps : ParameterProgramOps (Option String) where
  set_code := fun p src =>
    if src = "pad_diameter = (" then
      { error := some "unexpected end of input", program := p }
    else
      { error := none, program := some src }
  run := fun p pset =>
    match p with
    | none => { error := none, program := p, parameter_set := pset }
    | some c =>
      if c = "pad_diameter = unknown_id" then
        { error := some "undefined identifier unknown_id", program := p, parameter_set := pset }
      else if c = "pad_diameter = hole_diameter + clearance * 2" then
        match pset.lookup hole_diameter, pset.lookup clearance with
        | some h, some cl =>
          { error := none, program := p,
            parameter_set :=
              (pset.filter (fun kv => kv.1 != pad_diameter)) ++ [(pad_diameter, h + cl * 2)] }
        | _, _ => { error := some "undefined identifier", program := p, parameter_set := pset }
      else
        { error := none, program := p, parameter_set := pset }

/-- A state of the editor with no tool active: live set and pending set differ. -/
def exampleState (code : String) (required : Finset ParameterID) : ImpPadstack (Option String) where
  core_padstack :=
    { tool_is_active := false, parameter_program_code := code,
      parameter_set := [(hole_diameter, 800), (clearance, 50)],
      parameters_required := required }
  padstack := { parameter_program := some "old", parameter_set := [(hole_diameter, 700)] }
  parameter_window := { error_message := "" }
  log := []

/-- A state of the editor in which a tool is active. -/
def busyState (msg : String) : ImpPadstack (Option String) where
  core_padstack :=
    { tool_is_active := true, parameter_program_code := "pad_diameter = hole_diameter + clearance * 2",
      parameter_set := [(hole_diameter, 800), (clearance, 50)],
      parameters_required := ∅ }
  padstack := { parameter_program := some "old", parameter_set := [(hole_diameter, 700)] }
  parameter_window := { error_message := msg }
  log := []

/-- Outcome of the `set_code` call the Apply handler makes in state `s` (line 109). -/
def compileOutcome (ops : ParameterProgramOps Program) (s : ImpPadstack Program) :
    SetCodeResult Program :=
  ops.set_code s.padstack.parameter_program s.core_padstack.parameter_program_code

/-- Outcome of the `run` call the Apply handler makes in state `s` once `set_code` has succeeded
(line 118): the freshly compiled program is run on the copy of the editor's pending values that
line 116 has stored in `padstack.parameter_set`. -/
def runOutcome (ops : ParameterProgramOps Program) (s : ImpPadstack Program) :
    RunResult Program :=
  ops.run (compileOutcome ops s).program s.core_padstack.parameter_set

/-- The state in which Apply is invoked again: the state the first Apply left, with the editor's
pending values set to the live set that Apply committed. -/
def reapplyState (ops : ParameterProgramOps Program) (s : ImpPadstack Program) :
    ImpPadstack Program :=
  { signal_apply ops s with
    core_padstack :=
      { (signal_apply ops s).core_padstack with
        parameter_set := (signal_apply ops s).padstack.parameter_set } }

/-! ## The four paths through the Apply handler -/

theorem signal_apply_of_tool_active (ops : ParameterProgramOps Program) (s : ImpPadstack Program)
    (h : s.core_padstack.tool_is_active = true) : signal_apply ops s = s := by
  simp [signal_apply, h]

theorem signal_apply_of_compile_error (ops : ParameterProgramOps Program)
    (s : ImpPadstack Program) (m : String)
    (h : s.core_padstack.tool_is_active = false)
    (hc : (compileOutcome ops s).error = some m) :
    signal_apply ops s =
      { core_padstack := s.core_padstack
        padstack := { parameter_program := (compileOutcome ops s).program,
                      parameter_set := s.padstack.parameter_set }
        parameter_window := { error_message := "<b>Compile error:</b>" ++ m }
        log := s.log ++ [Event.set_code s.core_padstack.parameter_program_code,
                         Event.set_error_message ("<b>Compile error:</b>" ++ m)] } := by
  unfold compileOutcome at hc
  simp [signal_apply, call_set_code, set_error_message, h, hc, compileOutcome]

theorem signal_apply_of_run_error (ops : ParameterProgramOps Program)
    (s : ImpPadstack Program) (m : String)
    (h : s.core_padstack.tool_is_active = false)
    (hc : (compileOutcome ops s).error = none)
    (hr : (runOutcome ops s).error = some m) :
    signal_apply ops s =
      { core_padstack := s.core_padstack
        padstack := { parameter_program := (runOutcome ops s).program,
                      parameter_set := (runOutcome ops s).parameter_set }
        parameter_window := { error_message := "<b>Run error:</b>" ++ m }
        log := s.log ++ [Event.set_code s.core_padstack.parameter_program_code,
                         Event.set_error_message "",
                         Event.run s.core_padstack.parameter_set,
                         Event.set_error_message ("<b>Run error:</b>" ++ m)] } := by
  unfold runOutcome compileOutcome at hr
  unfold compileOutcome at hc
  simp [signal_apply, call_set_code, call_run, set_error_message, h, hc, hr, compileOutcome,
    runOutcome]

theorem signal_apply_of_success (ops : ParameterProgramOps Program)
    (s : ImpPadstack Program)
    (h : s.core_padstack.tool_is_active = false)
    (hc : (compileOutcome ops s).error = none)
    (hr : (runOutcome ops s).error = none) :
    signal_apply ops s =
      { core_padstack := s.core_padstack
        padstack := { parameter_program := (runOutcome ops s).program,
                      parameter_set := (runOutcome ops s).parameter_set }
        parameter_window := { error_message := "" }
        log := s.log ++ [Event.set_code s.core_padstack.parameter_program_code,
                         Event.set_error_message "",
                         Event.run s.core_padstack.parameter_set,
                         Event.set_error_message "",
                         Event.rebuild "apply parameter set" (runOutcome ops s).parameter_set,
                         Event.canvas_update (runOutcome ops s).parameter_set] } := by
  unfold runOutcome compileOutcome at hr
  unfold compileOutcome at hc
  simp [signal_apply, call_set_code, call_run, set_error_message, rebuild, canvas_update, h, hc,
    hr, compileOutcome, runOutcome]

theorem newEvents_of_log_eq (s s' : ImpPadstack Program) (evs : List Event)
    (h : s'.log = s.log ++ evs) : newEvents s s' = evs := by
  simp [newEvents, h]

theorem compile_error_message_ne_empty (m : String) : "<b>Compile error:</b>" ++ m ≠ "" := by
  intro h
  have hlen := congrArg String.length h
  have hpre : "<b>Compile error:</b>".length = 21 := by decide
  rw [String.length_append, hpre] at hlen
  have hzero : "".length = 0 := by decide
  omega

theorem run_error_message_ne_empty (m : String) : "<b>Run error:</b>" ++ m ≠ "" := by
  intro h
  have hlen := congrArg String.length h
  have hpre : "<b>Run error:</b>".length = 17 := by decide
  rw [String.length_append, hpre] at hlen
  have hzero : "".length = 0 := by decide
  omega

/-! ## Apply: run failure -/

/-- C1, as stated, fails: with no tool active, the source `pad_diameter = unknown_id` compiles, its
run fails, and the live parameter set after Apply is the editor's pending set, not the value the
live set had before Apply. -/
theorem C1_counterexample :
    (exampleState "pad_diameter = unknown_id" ∅).core_padstack.tool_is_active = false ∧
    (compileOutcome exampleOps (exampleState "pad_diameter = unknown_id" ∅)).error = none ∧
    (runOutcome exampleOps (exampleState "pad_diameter = unknown_id" ∅)).error
      = some "undefined identifier unknown_id" ∧
    (exampleState "pad_diameter = unknown_id" ∅).padstack.parameter_set = [(hole_diameter, 700)] ∧
    (signal_apply exampleOps (exampleState "pad_diameter = unknown_id" ∅)).padstack.parameter_set
      = [(hole_diameter, 800), (clearance, 50)] ∧
    (signal_apply exampleOps (exampleState "pad_diameter = unknown_id" ∅)).padstack.parameter_set
      ≠ (exampleState "pad_diameter = unknown_id" ∅).padstack.parameter_set := by
  decide

/-- C1 (amended): when no tool is active, compiling succeeds and running fails, the Apply handler
leaves the live parameter set equal to what the failed run leaves of the copy of the editor's
pending values made before the run, hence equal to the pending values themselves when the failed
run leaves its argument untouched; the editor's pending set is unchanged. -/
theorem C1_apply_run_error_live_set (ops : ParameterProgramOps Program)
    (s : ImpPadstack Program) (m : String)
    (h : s.core_padstack.tool_is_active = false)
    (hc : (compileOutcome ops s).error = none)
    (hr : (runOutcome ops s).error = some m) :
    (signal_apply ops s).padstack.parameter_set = (runOutcome ops s).parameter_set ∧
    ((runOutcome ops s).parameter_set = s.core_padstack.parameter_set →
      (signal_apply ops s).padstack.parameter_set = s.core_padstack.parameter_set) ∧
    (signal_apply ops s).core_padstack.parameter_set = s.core_padstack.parameter_set := by
  rw [signal_apply_of_run_error ops s m h hc hr]
  exact ⟨rfl, fun hk => hk, rfl⟩

theorem C1_apply_run_error_live_set_witness :
    (signal_apply exampleOps (exampleState "pad_diameter = unknown_id" ∅)).padstack.parameter_set
      = (runOutcome exampleOps (exampleState "pad_diameter = unknown_id" ∅)).parameter_set ∧
    ((runOutcome exampleOps (exampleState "pad_diameter = unknown_id" ∅)).parameter_set
        = (exampleState "pad_diameter = unknown_id" ∅).core_padstack.parameter_set →
      (signal_apply exampleOps (exampleState "pad_diameter = unknown_id" ∅)).padstack.parameter_set
        = (exampleState "pad_diameter = unknown_id" ∅).core_padstack.parameter_set) ∧
    (signal_apply exampleOps (exampleState "pad_diameter = unknown_id" ∅)).core_padstack.parameter_set
      = (exampleState "pad_diameter = unknown_id" ∅).core_padstack.parameter_set :=
  C1_apply_run_error_live_set exampleOps (exampleState "pad_diameter = unknown_id" ∅)
    "undefined identifier unknown_id" (by decide) (by decide) (by decide)

/-! ## Apply: compile failure -/

/-- C2: when no tool is active and compiling the source fails with message `m`, the Apply handler
makes no call of `run`, leaves the live parameter set as it was, and displays the compile-error
message `<b>Compile error:</b>` followed by `m`, which therefore contains `m`. -/
theorem C2_apply_compile_error (ops : ParameterProgramOps Program)
    (s : ImpPadstack Program) (m : String)
    (h : s.core_padstack.tool_is_active = false)
    (hc : (compileOutcome ops s).error = some m) :
    (∀ e ∈ newEvents s (signal_apply ops s), e.isRun = false) ∧
    (signal_apply ops s).padstack.parameter_set = s.padstack.parameter_set ∧
    (signal_apply ops s).parameter_window.error_message = "<b>Compile error:</b>" ++ m ∧
    (∃ before after : String,
      (signal_apply ops s).parameter_window.error_message = before ++ m ++ after) := by
  have hev : newEvents s (signal_apply ops s)
      = [Event.set_code s.core_padstack.parameter_program_code,
         Event.set_error_message ("<b>Compile error:</b>" ++ m)] := by
    apply newEvents_of_log_eq
    rw [signal_apply_of_compile_error ops s m h hc]
  refine ⟨?_, ?_, ?_, ?_⟩
  · intro e he
    rw [hev] at he
    simp only [List.mem_cons, List.mem_singleton, List.not_mem_nil, or_false] at he
    rcases he with rfl | rfl <;> rfl
  · rw [signal_apply_of_compile_error ops s m h hc]
  · rw [signal_apply_of_compile_error ops s m h hc]
  · refine ⟨"<b>Compile error:</b>", "", ?_⟩
    rw [signal_apply_of_compile_error ops s m h hc]
    simp

theorem C2_apply_compile_error_witness :
    (∀ e ∈ newEvents (exampleState "pad_diameter = (" ∅)
        (signal_apply exampleOps (exampleState "pad_diameter = (" ∅)), e.isRun = false) ∧
    (signal_apply exampleOps (exampleState "pad_diameter = (" ∅)).padstack.parameter_set
      = (exampleState "pad_diameter = (" ∅).padstack.parameter_set ∧
    (signal_apply exampleOps (exampleState "pad_diameter = (" ∅)).parameter_window.error_message
      = "<b>Compile error:</b>" ++ "unexpected end of input" ∧
    (∃ before after : String,
      (signal_apply exampleOps (exampleState "pad_diameter = (" ∅)).parameter_window.error_message
        = before ++ "unexpected end of input" ++ after) :=
  C2_apply_compile_error exampleOps (exampleState "pad_diameter = (" ∅)
    "unexpected end of input" (by decide) (by decide)

/-! ## Apply while a tool is active -/

/-- C3: when a tool is active the Apply handler returns the state it was given: it calls neither
`set_code` nor `run`, and the live parameter set, the compiled program, the editor's pending
parameter set and the program source are all as before the call. -/
theorem C3_apply_tool_active (ops : ParameterProgramOps Program) (s : ImpPadstack Program)
    (h : s.core_padstack.tool_is_active = true) :
    (∀ e ∈ newEvents s (signal_apply ops s), e.isSetCode = false ∧ e.isRun = false) ∧
    (signal_apply ops s).padstack.parameter_set = s.padstack.parameter_set ∧
    (signal_apply ops s).padstack.parameter_program = s.padstack.parameter_program ∧
    (signal_apply ops s).core_padstack.parameter_set = s.core_padstack.parameter_set ∧
    (signal_apply ops s).core_padstack.parameter_program_code
      = s.core_padstack.parameter_program_code ∧
    signal_apply ops s = s := by
  rw [signal_apply_of_tool_active ops s h]
  refine ⟨?_, rfl, rfl, rfl, rfl, rfl⟩
  intro e he
  simp [newEvents] at he

theorem C3_apply_tool_active_witness :
    (∀ e ∈ newEvents (busyState "") (signal_apply exampleOps (busyState "")),
      e.isSetCode = false ∧ e.isRun = false) ∧
    (signal_apply exampleOps (busyState "")).padstack.parameter_set
      = (busyState "").padstack.parameter_set ∧
    (signal_apply exampleOps (busyState "")).padstack.parameter_program
      = (busyState "").padstack.parameter_program ∧
    (signal_apply exampleOps (busyState "")).core_padstack.parameter_set
      = (busyState "").core_padstack.parameter_set ∧
    (signal_apply exampleOps (busyState "")).core_padstack.parameter_program_code
      = (busyState "").core_padstack.parameter_program_code ∧
    signal_apply exampleOps (busyState "") = busyState "" :=
  C3_apply_tool_active exampleOps (busyState "") (by decide)

/-! ## Apply: success -/

/-- C4: when no tool is active and both compiling and running succeed, after Apply the live
parameter set is the set `run` produces from a copy of the editor's pending values, whatever the
live set was before the call; the editor's pending set is unchanged and the displayed error
message is empty. -/
theorem C4_apply_success (ops : ParameterProgramOps Program) (s : ImpPadstack Program)
    (h : s.core_padstack.tool_is_active = false)
    (hc : (compileOutcome ops s).error = none)
    (hr : (runOutcome ops s).error = none) :
    (signal_apply ops s).padstack.parameter_set
      = (ops.run (compileOutcome ops s).program s.core_padstack.parameter_set).parameter_set ∧
    (∀ live : ParameterSet,
      (signal_apply ops
          { s with padstack := { s.padstack with parameter_set := live } }).padstack.parameter_set
        = (signal_apply ops s).padstack.parameter_set) ∧
    (signal_apply ops s).core_padstack.parameter_set = s.core_padstack.parameter_set ∧
    (signal_apply ops s).parameter_window.error_message = "" := by
  refine ⟨?_, ?_, ?_, ?_⟩
  · rw [signal_apply_of_success ops s h hc hr]
    rfl
  · intro live
    rw [signal_apply_of_success ops s h hc hr,
      signal_apply_of_success ops
        { s with padstack := { s.padstack with parameter_set := live } } h hc hr]
    rfl
  · rw [signal_apply_of_success ops s h hc hr]
  · rw [signal_apply_of_success ops s h hc hr]

theorem C4_apply_success_witness :
    (signal_apply exampleOps
        (exampleState "pad_diameter = hole_diameter + clearance * 2" ∅)).padstack.parameter_set
      = (exampleOps.run
          (compileOutcome exampleOps
            (exampleState "pad_diameter = hole_diameter + clearance * 2" ∅)).program
          (exampleState "pad_diameter = hole_diameter + clearance * 2"
            ∅).core_padstack.parameter_set).parameter_set ∧
    (∀ live : ParameterSet,
      (signal_apply exampleOps
          { exampleState "pad_diameter = hole_diameter + clearance * 2" ∅ with
            padstack :=
              { (exampleState "pad_diameter = hole_diameter + clearance * 2" ∅).padstack with
                parameter_set := live } }).padstack.parameter_set
        = (signal_apply exampleOps
            (exampleState "pad_diameter = hole_diameter + clearance * 2"
              ∅)).padstack.parameter_set) ∧
    (signal_apply exampleOps
        (exampleState "pad_diameter = hole_diameter + clearance * 2"
          ∅)).core_padstack.parameter_set
      = (exampleState "pad_diameter = hole_diameter + clearance * 2"
          ∅).core_padstack.parameter_set ∧
    (signal_apply exampleOps
        (exampleState "pad_diameter = hole_diameter + clearance * 2"
          ∅)).parameter_window.error_message = "" :=
  C4_apply_success exampleOps (exampleState "pad_diameter = hole_diameter + clearance * 2" ∅)
    (by decide) (by decide) (by decide)

/-! ## Apply and the required set -/

/-- C6, as stated, fails: with no tool active, the source `pad_diameter = unknown_id` compiles and
its run fails; the Apply fails, and the compiled program after the call is the newly compiled
one, not the program held before the call. -/
theorem C6_counterexample :
    (exampleState "pad_diameter = unknown_id" {2}).core_padstack.tool_is_active = false ∧
    (compileOutcome exampleOps (exampleState "pad_diameter = unknown_id" {2})).error = none ∧
    (runOutcome exampleOps (exampleState "pad_diameter = unknown_id" {2})).error ≠ none ∧
    (exampleState "pad_diameter = unknown_id" {2}).padstack.parameter_program = some "old" ∧
    (signal_apply exampleOps
        (exampleState "pad_diameter = unknown_id" {2})).padstack.parameter_program
      = some "pad_diameter = unknown_id" ∧
    (signal_apply exampleOps
        (exampleState "pad_diameter = unknown_id" {2})).padstack.parameter_program
      ≠ (exampleState "pad_diameter = unknown_id" {2}).padstack.parameter_program := by
  decide

/-- C6 (amended): an Apply rejected because a tool is active leaves the compiled program exactly
as it was; an Apply whose compile fails leaves the program as the failed `set_code` leaves it,
which is the program held before the call whenever that `set_code` call leaves the program
untouched; an Apply whose run fails does not restore the previous program: the program is the
newly compiled one, as `run` leaves it. -/
theorem C6_apply_failure_program (ops : ParameterProgramOps Program) (s : ImpPadstack Program) :
    (s.core_padstack.tool_is_active = true →
      (signal_apply ops s).padstack.parameter_program = s.padstack.parameter_program) ∧
    (s.core_padstack.tool_is_active = false → (compileOutcome ops s).error ≠ none →
      (signal_apply ops s).padstack.parameter_program = (compileOutcome ops s).program ∧
      ((compileOutcome ops s).program = s.padstack.parameter_program →
        (signal_apply ops s).padstack.parameter_program = s.padstack.parameter_program)) ∧
    (s.core_padstack.tool_is_active = false → (compileOutcome ops s).error = none →
      (runOutcome ops s).error ≠ none →
      (signal_apply ops s).padstack.parameter_program
        = (ops.run (compileOutcome ops s).program s.core_padstack.parameter_set).program) := by
  refine ⟨?_, ?_, ?_⟩
  · intro h
    rw [signal_apply_of_tool_active ops s h]
  · intro h hc
    cases hm : (compileOutcome ops s).error with
    | none => exact absurd hm hc
    | some m =>
      rw [signal_apply_of_compile_error ops s m h hm]
      exact ⟨rfl, fun hk => hk⟩
  · intro h hc hr
    cases hm : (runOutcome ops s).error with
    | none => exact absurd hm hr
    | some m =>
      rw [signal_apply_of_run_error ops s m h hc hm]
      rfl

theorem C6_apply_failure_program_witness :
    ((signal_apply exampleOps (busyState "")).padstack.parameter_program
      = (busyState "").padstack.parameter_program) ∧
    ((signal_apply exampleOps (exampleState "pad_diameter = (" ∅)).padstack.parameter_program
        = (compileOutcome exampleOps (exampleState "pad_diameter = (" ∅)).program ∧
      ((compileOutcome exampleOps (exampleState "pad_diameter = (" ∅)).program
          = (exampleState "pad_diameter = (" ∅).padstack.parameter_program →
        (signal_apply exampleOps (exampleState "pad_diameter = (" ∅)).padstack.parameter_program
          = (exampleState "pad_diameter = (" ∅).padstack.parameter_program)) ∧
    ((signal_apply exampleOps
        (exampleState "pad_diameter = unknown_id" ∅)).padstack.parameter_program
      = (exampleOps.run
          (compileOutcome exampleOps (exampleState "pad_diameter = unknown_id" ∅)).program
          (exampleState "pad_diameter = unknown_id" ∅).core_padstack.parameter_set).program) :=
  ⟨(C6_apply_failure_program exampleOps (busyState "")).1 (by decide),
   (C6_apply_failure_program exampleOps (exampleState "pad_diameter = (" ∅)).2.1
      (by decide) (by decide),
   (C6_apply_failure_program exampleOps (exampleState "pad_diameter = unknown_id" ∅)).2.2
      (by decide) (by decide) (by decide)⟩

/-! ## Apply: the rebuild and redraw hooks -/

/-- C7: among the calls the Apply handler makes, the hooks are exactly these: when no tool is
active and both compiling and running succeed, one call of `rebuild` followed by one call of
`canvas_update`, each finding the live parameter set already equal to the set the run produced
(which is the live set the handler leaves); in every other case, none. -/
theorem C7_apply_hooks (ops : ParameterProgramOps Program) (s : ImpPadstack Program) :
    (newEvents s (signal_apply ops s)).filter Event.isHook
      = (if s.core_padstack.tool_is_active = false ∧ (compileOutcome ops s).error = none ∧
            (runOutcome ops s).error = none then
          [Event.rebuild "apply parameter set" (runOutcome ops s).parameter_set,
           Event.canvas_update (runOutcome ops s).parameter_set]
        else []) ∧
    ((s.core_padstack.tool_is_active = false ∧ (compileOutcome ops s).error = none ∧
        (runOutcome ops s).error = none) →
      (signal_apply ops s).padstack.parameter_set = (runOutcome ops s).parameter_set) := by
  constructor
  · cases h : s.core_padstack.tool_is_active with
    | true =>
      rw [signal_apply_of_tool_active ops s h]
      simp [newEvents]
    | false =>
      cases hc : (compileOutcome ops s).error with
      | some m =>
        rw [newEvents_of_log_eq s _ _
          (congrArg ImpPadstack.log (signal_apply_of_compile_error ops s m h hc))]
        simp [Event.isHook]
      | none =>
        cases hr : (runOutcome ops s).error with
        | some m =>
          rw [newEvents_of_log_eq s _ _
            (congrArg ImpPadstack.log (signal_apply_of_run_error ops s m h hc hr))]
          simp [Event.isHook]
        | none =>
          rw [newEvents_of_log_eq s _ _
            (congrArg ImpPadstack.log (signal_apply_of_success ops s h hc hr))]
          simp [Event.isHook]
  · rintro ⟨h, hc, hr⟩
    rw [signal_apply_of_success ops s h hc hr]

theorem C7_apply_hooks_witness :
    (newEvents (exampleState "pad_diameter = hole_diameter + clearance * 2" ∅)
        (signal_apply exampleOps
          (exampleState "pad_diameter = hole_diameter + clearance * 2" ∅))).filter Event.isHook
      = [Event.rebuild "apply parameter set"
           [(hole_diameter, 800), (clearance, 50), (pad_diameter, 900)],
         Event.canvas_update [(hole_diameter, 800), (clearance, 50), (pad_diameter, 900)]] ∧
    (newEvents (exampleState "pad_diameter = unknown_id" ∅)
        (signal_apply exampleOps
          (exampleState "pad_diameter = unknown_id" ∅))).filter Event.isHook = [] ∧
    (signal_apply exampleOps
        (exampleState "pad_diameter = hole_diameter + clearance * 2" ∅)).padstack.parameter_set
      = (runOutcome exampleOps
          (exampleState "pad_diameter = hole_diameter + clearance * 2" ∅)).parameter_set :=
  ⟨((C7_apply_hooks exampleOps
        (exampleState "pad_diameter = hole_diameter + clearance * 2" ∅)).1).trans (by decide),
   ((C7_apply_hooks exampleOps (exampleState "pad_diameter = unknown_id" ∅)).1).trans
      (by decide),
   (C7_apply_hooks exampleOps
        (exampleState "pad_diameter = hole_diameter + clearance * 2" ∅)).2
      ⟨by decide, by decide, by decide⟩⟩

/-! ## Apply twice -/

/-- C8: let Apply succeed in a state `s` with no tool active and commit the live set `R`, for a
source whose compilation does not depend on the program held before (`hdet`) and whose compiled
program maps `R` to `R` (`hfix`).  Then Apply invoked again with the same source, no tool being
active, with the editor's pending set equal to `R` (or still equal to the pending set of the first
Apply), in particular in the state the first Apply left, succeeds and commits a live set
identical to `R`. -/
theorem C8_apply_fixed_point (ops : ParameterProgramOps Program) (s t : ImpPadstack Program)
    (h : s.core_padstack.tool_is_active = false)
    (hc : (compileOutcome ops s).error = none)
    (hr : (runOutcome ops s).error = none)
    (hdet : ∀ p : Program,
      ops.set_code p s.core_padstack.parameter_program_code
        = ops.set_code s.padstack.parameter_program s.core_padstack.parameter_program_code)
    (hfix : (ops.run (compileOutcome ops s).program (runOutcome ops s).parameter_set).error = none ∧
      (ops.run (compileOutcome ops s).program (runOutcome ops s).parameter_set).parameter_set
        = (runOutcome ops s).parameter_set)
    (ht : t.core_padstack.tool_is_active = false)
    (htcode : t.core_padstack.parameter_program_code = s.core_padstack.parameter_program_code)
    (htset : t.core_padstack.parameter_set = (signal_apply ops s).padstack.parameter_set ∨
      t.core_padstack.parameter_set = s.core_padstack.parameter_set) :
    (compileOutcome ops t).error = none ∧
    (runOutcome ops t).error = none ∧
    (signal_apply ops t).parameter_window.error_message = "" ∧
    (signal_apply ops t).padstack.parameter_set = (signal_apply ops s).padstack.parameter_set := by
  have hR : (signal_apply ops s).padstack.parameter_set = (runOutcome ops s).parameter_set := by
    rw [signal_apply_of_success ops s h hc hr]
  have hct : compileOutcome ops t = compileOutcome ops s := by
    unfold compileOutcome
    rw [htcode]
    exact hdet _
  have hc' : (compileOutcome ops t).error = none := by rw [hct]; exact hc
  have hrt : (runOutcome ops t).error = none ∧
      (runOutcome ops t).parameter_set = (runOutcome ops s).parameter_set := by
    unfold runOutcome
    rw [hct]
    rcases htset with hset | hset
    · rw [hset, hR]
      exact hfix
    · rw [hset]
      exact ⟨hr, rfl⟩
  refine ⟨hc', hrt.1, ?_, ?_⟩
  · rw [signal_apply_of_success ops t ht hc' hrt.1]
  · rw [hR, signal_apply_of_success ops t ht hc' hrt.1]
    exact hrt.2

theorem C8_apply_fixed_point_witness :
    (compileOutcome exampleOps
      (reapplyState exampleOps
        (exampleState "pad_diameter = hole_diameter + clearance * 2" ∅))).error = none ∧
    (runOutcome exampleOps
      (reapplyState exampleOps
        (exampleState "pad_diameter = hole_diameter + clearance * 2" ∅))).error = none ∧
    (signal_apply exampleOps
      (reapplyState exampleOps
        (exampleState "pad_diameter = hole_diameter + clearance * 2"
          ∅))).parameter_window.error_message = "" ∧
    (signal_apply exampleOps
      (reapplyState exampleOps
        (exampleState "pad_diameter = hole_diameter + clearance * 2" ∅))).padstack.parameter_set
      = (signal_apply exampleOps
          (exampleState "pad_diameter = hole_diameter + clearance * 2" ∅)).padstack.parameter_set :=
  C8_apply_fixed_point exampleOps
    (exampleState "pad_diameter = hole_diameter + clearance * 2" ∅)
    (reapplyState exampleOps (exampleState "pad_diameter = hole_diameter + clearance * 2" ∅))
    (by decide) (by decide) (by decide) (fun _ => rfl) (by decide) (by decide) (by decide)
    (Or.inl (by decide))

/-! ## Apply: the displayed message after a failure -/

/-- C9, as stated, fails: a tool is active and no message is displayed; Apply is rejected, and the
message displayed after the call is still empty. -/
theorem C9_counterexample :
    (busyState "").core_padstack.tool_is_active = true ∧
    (busyState "").parameter_window.error_message = "" ∧
    (signal_apply exampleOps (busyState "")).parameter_window.error_message = "" ∧
    newEvents (busyState "") (signal_apply exampleOps (busyState "")) = [] := by
  decide

/-- C9 (amended): an Apply that fails because the source does not compile, or because the run
fails, displays a non-empty message for that failure (`<b>Compile error:</b>` or
`<b>Run error:</b>` followed by the message returned), whatever message was displayed before;
an Apply rejected because a tool is active returns without displaying anything: the message
displayed before the call stays. -/
theorem C9_apply_failure_message (ops : ParameterProgramOps Program) (s : ImpPadstack Program) :
    (s.core_padstack.tool_is_active = true →
      (signal_apply ops s).parameter_window.error_message = s.parameter_window.error_message) ∧
    (s.core_padstack.tool_is_active = false → ∀ m, (compileOutcome ops s).error = some m →
      (signal_apply ops s).parameter_window.error_message = "<b>Compile error:</b>" ++ m ∧
      (signal_apply ops s).parameter_window.error_message ≠ "") ∧
    (s.core_padstack.tool_is_active = false → (compileOutcome ops s).error = none →
      ∀ m, (runOutcome ops s).error = some m →
      (signal_apply ops s).parameter_window.error_message = "<b>Run error:</b>" ++ m ∧
      (signal_apply ops s).parameter_window.error_message ≠ "") := by
  refine ⟨?_, ?_, ?_⟩
  · intro h
    rw [signal_apply_of_tool_active ops s h]
  · intro h m hc
    rw [signal_apply_of_compile_error ops s m h hc]
    exact ⟨rfl, compile_error_message_ne_empty m⟩
  · intro h hc m hr
    rw [signal_apply_of_run_error ops s m h hc hr]
    exact ⟨rfl, run_error_message_ne_empty m⟩

theorem C9_apply_failure_message_witness :
    ((signal_apply exampleOps (busyState "stale")).parameter_window.error_message
      = (busyState "stale").parameter_window.error_message) ∧
    ((signal_apply exampleOps (exampleState "pad_diameter = (" ∅)).parameter_window.error_message
        = "<b>Compile error:</b>" ++ "unexpected end of input" ∧
      (signal_apply exampleOps (exampleState "pad_diameter = (" ∅)).parameter_window.error_message
        ≠ "") ∧
    ((signal_apply exampleOps
          (exampleState "pad_diameter = unknown_id" ∅)).parameter_window.error_message
        = "<b>Run error:</b>" ++ "undefined identifier unknown_id" ∧
      (signal_apply exampleOps
          (exampleState "pad_diameter = unknown_id" ∅)).parameter_window.error_message ≠ "") :=
  ⟨(C9_apply_failure_message exampleOps (busyState "stale")).1 (by decide),
   (C9_apply_failure_message exampleOps (exampleState "pad_diameter = (" ∅)).2.1 (by decide)
      "unexpected end of input" (by decide),
   (C9_apply_failure_message exampleOps (exampleState "pad_diameter = unknown_id" ∅)).2.2
      (by decide) (by decide) "undefined identifier unknown_id" (by decide)⟩

/-! ## The handlers of the required set -/

/-- C10: after the Required check button of row `id` is toggled, `id` is in the required set if and
only if the button is active; after row `id` is removed, `id` is not in the required set; in both
cases every other id is in the required set exactly if it was before, and both the editor's
pending parameter set and the live parameter set are unchanged. -/
theorem C10_required_handlers (s : ImpPadstack Program) (id : ParameterID) (active : Bool) :
    (id ∈ (signal_toggled s id active).core_padstack.parameters_required ↔ active = true) ∧
    id ∉ (signal_remove_extra_widget s id).core_padstack.parameters_required ∧
    (∀ other : ParameterID, other ≠ id →
      (other ∈ (signal_toggled s id active).core_padstack.parameters_required
        ↔ other ∈ s.core_padstack.parameters_required) ∧
      (other ∈ (signal_remove_extra_widget s id).core_padstack.parameters_required
        ↔ other ∈ s.core_padstack.parameters_required)) ∧
    (signal_toggled s id active).core_padstack.parameter_set = s.core_padstack.parameter_set ∧
    (signal_toggled s id active).padstack.parameter_set = s.padstack.parameter_set ∧
    (signal_remove_extra_widget s id).core_padstack.parameter_set
      = s.core_padstack.parameter_set ∧
    (signal_remove_extra_widget s id).padstack.parameter_set = s.padstack.parameter_set := by
  refine ⟨?_, ?_, ?_, ?_, rfl, rfl, rfl⟩
  · cases active <;> simp [signal_toggled]
  · simp [signal_remove_extra_widget]
  · intro other hne
    constructor
    · cases active <;> simp [signal_toggled, hne]
    · simp [signal_remove_extra_widget, hne]
  · cases active <;> rfl

theorem C10_required_handlers_witness :
    ((1 : ParameterID) ∈ (signal_toggled (exampleState "" {2}) 1
        true).core_padstack.parameters_required ↔ true = true) ∧
    (2 : ParameterID) ∈ (signal_toggled (exampleState "" {2}) 1
        true).core_padstack.parameters_required ∧
    (2 : ParameterID) ∉ (signal_toggled (exampleState "" {2}) 2
        false).core_padstack.parameters_required ∧
    (2 : ParameterID) ∉ (signal_remove_extra_widget (exampleState "" {2})
        2).core_padstack.parameters_required :=
  ⟨(C10_required_handlers (exampleState "" {2}) 1 true).1,
   by decide, by decide,
   (C10_required_handlers (exampleState "" {2}) 2 true).2.1⟩

end Horizon
